import Mathlib

/-!
Verification development for the pyiceclient repository
(src/pyiceclient/pyiceclient.py).

The module is a codec between a flat "ICE web client" immunization record
and the vMR clinical-document XML exchanged with the ICE decision-support
service.  We shallowly embed the three core components:

* the Code Classifier (regexes RE_SCT / RE_ICD10 / RE_ICD9 and the
  if/elif chain in data2vmr, lines 365-373),
* the Document Builder (data2vmr, lines 344-380, together with the
  XML templates VMR_HEADER / VMR_IZ / VMR_DISEASE / VMR_FOOTER),
* the Document Parser (process_vmr, lines 271-341),
* the transport wrapper send_request (lines 250-268), with the envelope
  encoding abstracted.

Python strings are modelled as lists of characters (LChar).  Python's
str.replace is modelled by pyReplace, str.split(sep)[0] by splitColon0,
and RE_YYYYMMDD.findall(s)[0] by yyyymmddFirst (IndexError on a missing
match becomes Option.none).  The fresh identifiers drawn from
uuid.uuid4() are modelled by an explicit supply u : Nat -> LChar that
data2vmr consumes in program order.
-/

namespace PyIce

/-- Python strings are modelled as lists of characters. -/
abbrev LChar := List Char

/-! ## XML templates (verbatim from pyiceclient.py, split at the %s markers)

VMR_HEADER has three substitutions (uuid, dob, gender), VMR_IZ has five
(immunization id, uuid, cvx code, date, date), VMR_DISEASE has five
(uuid, code, code system OID, date, date), VMR_FOOTER has none. -/

def VMR_HEADER_P1 : LChar := "<?xml version=\"1.0\" encoding=\"UTF-8\" standalone=\"yes\"?>\n<ns3:cdsInput xmlns:ns2=\"org.opencds.vmr.v1_0.schema.vmr\" xmlns:ns3=\"org.opencds.vmr.v1_0.schema.cdsinput\">\n  <templateId root=\"2.16.840.1.113883.3.795.11.1.1\"/>\n  <cdsContext>\n    <cdsSystemUserPreferredLanguage code=\"en\" codeSystem=\"2.16.840.1.113883.6.99\" displayName=\"English\"/>\n  </cdsContext>\n  <vmrInput>\n    <templateId root=\"2.16.840.1.113883.3.795.11.1.1\"/>\n    <patient>\n      <templateId root=\"2.16.840.1.113883.3.795.11.2.1.1\"/>\n      <id root=\"".data

def VMR_HEADER_P2 : LChar := "\"/>\n      <demographics>\n      <birthTime value=\"".data

def VMR_HEADER_P3 : LChar := "\"/>\n      <gender code=\"".data

def VMR_HEADER_P4 : LChar := "\" codeSystem=\"2.16.840.1.113883.5.1\"/>\n      </demographics>\n      <clinicalStatements>\n      <observationResults/>\n      <substanceAdministrationEvents>\n".data

def VMR_IZ_P1 : LChar := "<substanceAdministrationEvent>\n            <templateId root=\"2.16.840.1.113883.3.795.11.9.1.1\"/>\n            <id root=\"".data

def VMR_IZ_P2 : LChar := "\"/>\n            <substanceAdministrationGeneralPurpose code=\"384810002\" codeSystem=\"2.16.840.1.113883.6.5\"/>\n            <substance>\n              <id root=\"".data

def VMR_IZ_P3 : LChar := "\"/>\n              <substanceCode code=\"".data

def VMR_IZ_P4 : LChar := "\" codeSystem=\"2.16.840.1.113883.12.292\"/>\n            </substance>\n            <administrationTimeInterval low=\"".data

def VMR_IZ_P5 : LChar := "\" high=\"".data

def VMR_IZ_P6 : LChar := "\"/>\n          </substanceAdministrationEvent>\n".data

def VMR_DISEASE_P1 : LChar := "<observationResult>\n  <templateId root=\"2.16.840.1.113883.3.795.11.6.3.1\"/>\n  <id root=\"".data

def VMR_DISEASE_P2 : LChar := "\"/>\n  <observationFocus code=\"".data

def VMR_DISEASE_P3 : LChar := "\" codeSystem=\"".data

def VMR_DISEASE_P4 : LChar := "\"/> \n  <observationEventTime low=\"".data

def VMR_DISEASE_P5 : LChar := "\" high=\"".data

def VMR_DISEASE_P6 : LChar := "\"/>\n  <observationValue>\n    <concept code=\"DISEASE_DOCUMENTED\" codeSystem=\"2.16.840.1.113883.3.795.12.100.8\"/>\n  </observationValue>\n  <interpretation code=\"IS_IMMUNE\" codeSystem=\"2.16.840.1.113883.3.795.12.100.9\"/>\n</observationResult>\n".data

def VMR_FOOTER_T : LChar := "</substanceAdministrationEvents>\n      </clinicalStatements>\n    </patient>\n  </vmrInput>\n</ns3:cdsInput>\n".data

/-! ## Code system OIDs (pyiceclient.py lines 241-243) -/

def ICD9_OID : LChar := "2.16.840.1.113883.6.103".data

def ICD10_OID : LChar := "2.16.840.1.113883.6.90".data

def SCT_OID : LChar := "2.16.840.1.113883.6.96".data

/-! ## Regular expressions

The four compiled patterns of pyiceclient.py lines 234-237, used with
Python prefix-match (`re.match`, anchored at the start of the string,
the rest of the string ignored) or scanning (`findall`) semantics.
Python's character class backslash-d is modelled as the ASCII digits
0-9, which is what all inputs of this codec use. -/

/-- RE_SCT = "[0-9]{6}[0-9]*" under re.match: the string starts with at
least six digit characters (the trailing "[0-9]*" can match empty). -/
def re_sct_match : LChar → Bool
  | c0 :: c1 :: c2 :: c3 :: c4 :: c5 :: _ =>
      c0.isDigit && c1.isDigit && c2.isDigit && c3.isDigit && c4.isDigit && c5.isDigit
  | _ => false

/-- Character class [A-TV-Z] of RE_ICD10. -/
def icdLetter (c : Char) : Bool := ('A' ≤ c && c ≤ 'T') || ('V' ≤ c && c ≤ 'Z')

/-- Character class [A-Z0-9] of RE_ICD10. -/
def ucAlnum (c : Char) : Bool := ('A' ≤ c && c ≤ 'Z') || c.isDigit

/-- RE_ICD10 = "([A-TV-Z][0-9][A-Z0-9](\.?[A-Z0-9]{0,4})?)" under
re.match: the optional final group can always match empty, so the match
succeeds exactly when the first three characters fit their classes. -/
def re_icd10_match : LChar → Bool
  | c0 :: c1 :: c2 :: _ => icdLetter c0 && c1.isDigit && ucAlnum c2
  | _ => false

/-- RE_ICD9 = "([V\d]\d{2}(\.?\d{0,2})?|E\d{3}(\.?\d)?|\d{2}(\.?\d{0,2})?)"
under re.match: one of the three alternatives matches a prefix.  The
optional groups can always match empty, so the alternatives reduce to
their mandatory heads: [V\d]\d{2}, E\d{3}, or \d{2}. -/
def re_icd9_match : LChar → Bool
  | c0 :: c1 :: c2 :: c3 :: _ =>
      ((c0 = 'V' || c0.isDigit) && c1.isDigit && c2.isDigit)
      || (c0 = 'E' && c1.isDigit && c2.isDigit && c3.isDigit)
      || (c0.isDigit && c1.isDigit)
  | [c0, c1, c2] =>
      ((c0 = 'V' || c0.isDigit) && c1.isDigit && c2.isDigit)
      || (c0.isDigit && c1.isDigit)
  | [c0, c1] => c0.isDigit && c1.isDigit
  | _ => false

/-- RE_YYYYMMDD.findall(s)[0]: the leftmost run of eight consecutive
digit characters, or none (modelling the IndexError raised by `[0]` on
an empty findall result). -/
def yyyymmddFirst : LChar → Option LChar
  | [] => none
  | c :: s =>
      let w := (c :: s).take 8
      if w.length = 8 && w.all Char.isDigit then some w else yyyymmddFirst s

/-- The if/elif chain of data2vmr lines 366-373 choosing the coding
system OID for a Disease-kind code, first match wins; none models the
final bare `else: pass` (silent skip). -/
def classify (code : LChar) : Option LChar :=
  if re_sct_match code then some SCT_OID
  else if re_icd10_match code then some ICD10_OID
  else if re_icd9_match code then some ICD9_OID
  else none

/-- Python's iz[ICE_IZS_CODE].split(':')[0] (line 360): the longest
prefix of the string not containing ':' (everything before the first
colon; the whole string when there is no colon). -/
def splitColon0 (s : LChar) : LChar := s.takeWhile (fun c => c ≠ ':')

/-! ## The client record (input of data2vmr) -/

/-- One immunization list entry (elements 0-3 of an izs entry). -/
structure Iz where
  izId : LChar
  izDate : LChar
  izCode : LChar
  izKind : LChar
deriving DecidableEq

/-- The fields of the ICE web client record that data2vmr reads
(data[0]['dob'], data[0]['gender'], data[0]['izs']); the remaining
keys of the record are never accessed by the encoder. -/
structure ClientRecord where
  dob : LChar
  gender : LChar
  izs : List Iz
deriving DecidableEq

/-! ## The Document Builder (data2vmr) -/

/-- VMR_HEADER % (uuid, dob, gender) (line 356). -/
def renderHeader (uuid dob gender : LChar) : LChar :=
  VMR_HEADER_P1 ++ uuid ++ VMR_HEADER_P2 ++ dob ++ VMR_HEADER_P3 ++ gender ++ VMR_HEADER_P4

/-- VMR_IZ % (iz_id, uuid, code, date, date) (line 364). -/
def renderIz (izId uuid code date : LChar) : LChar :=
  VMR_IZ_P1 ++ izId ++ VMR_IZ_P2 ++ uuid ++ VMR_IZ_P3 ++ code ++ VMR_IZ_P4 ++ date
    ++ VMR_IZ_P5 ++ date ++ VMR_IZ_P6

/-- VMR_DISEASE % (uuid, code, oid, date, date) (lines 367-371). -/
def renderDisease (uuid code oid date : LChar) : LChar :=
  VMR_DISEASE_P1 ++ uuid ++ VMR_DISEASE_P2 ++ code ++ VMR_DISEASE_P3 ++ oid
    ++ VMR_DISEASE_P4 ++ date ++ VMR_DISEASE_P5 ++ date ++ VMR_DISEASE_P6

/-- One iteration of the `for iz in data[0]['izs']` loop (lines
359-373).  The state is (vmr_body, observation_results, next uuid
index); u is the uuid supply.  A uuid is drawn exactly when the source
calls uuid.uuid4(): once per emitted substanceAdministrationEvent and
once per emitted observationResult. -/
def izLoopStep (u : Nat → LChar) (st : LChar × LChar × Nat) (iz : Iz) : LChar × LChar × Nat :=
  let code := splitColon0 iz.izCode
  let date := iz.izDate
  if 0 < code.length && 0 < date.length then
    let body := st.1
    let obs := st.2.1
    let k := st.2.2
    let bk : LChar × Nat :=
      if iz.izKind = "I".data then (body ++ renderIz iz.izId (u k) code date, k + 1)
      else (body, k)
    let ok : LChar × Nat :=
      if iz.izKind = "D".data then
        match classify code with
        | some oid => (obs ++ renderDisease (u bk.2) code oid date, bk.2 + 1)
        | none => (obs, bk.2)
      else (obs, bk.2)
    (bk.1, ok.1, ok.2)
  else st

/-- The whole immunization loop of data2vmr. -/
def izLoop (u : Nat → LChar) (st : LChar × LChar × Nat) (izs : List Iz) : LChar × LChar × Nat :=
  izs.foldl (izLoopStep u) st

/-- Python's str.replace(pat, rep): replace every non-overlapping
occurrence of pat, scanning left to right.  (The source only ever calls
this with the non-empty pattern OBS_MARKER; for an empty pattern this
model returns the string unchanged.) -/
def isPfx : LChar → LChar → Bool
  | [], _ => true
  | _ :: _, [] => false
  | a :: as, b :: bs => a = b && isPfx as bs

def pyReplace (pat rep : LChar) (s : LChar) : LChar :=
  match s with
  | [] => []
  | c :: s' =>
      if isPfx pat (c :: s') then rep ++ pyReplace pat rep (s'.drop (pat.length - 1))
      else c :: pyReplace pat rep s'
termination_by s.length
decreasing_by
  · simp only [List.length_drop, List.length_cons]
    omega
  · simp only [List.length_cons]
    omega

/-- The placeholder element the two-phase build substitutes (line 377). -/
def OBS_MARKER : LChar := "<observationResults/>".data

def OBS_OPEN : LChar := "<observationResults>".data

def OBS_CLOSE : LChar := "</observationResults>".data

/-- data2vmr on the selected record (the source reads data[0]): build
the header, run the immunization loop, splice the collected disease
observations into the observationResults placeholder when non-empty,
append the footer (lines 356-380). -/
def data2vmrRec (u : Nat → LChar) (d : ClientRecord) : LChar :=
  let body0 := renderHeader (u 0) d.dob d.gender
  let res := izLoop u (body0, [], 1) d.izs
  let body :=
    if 0 < res.2.1.length then pyReplace OBS_MARKER (OBS_OPEN ++ res.2.1 ++ OBS_CLOSE) res.1
    else res.1
  body ++ VMR_FOOTER_T

/-- data2vmr proper: the source indexes data[0], an IndexError on an
empty batch is modelled as none. -/
def data2vmr (u : Nat → LChar) (data : List ClientRecord) : Option LChar :=
  data.head?.map (data2vmrRec u)

/-! ## The Document Parser (process_vmr)

process_vmr receives the response document already parsed by xmltodict
with process_namespaces=True and force_list on
substanceAdministrationEvent, relatedClinicalStatement,
substanceAdministrationProposal and interpretation.  The structures
below embed exactly the fields the parser reads; a key the source
accesses unconditionally becomes a plain field, a key the source first
tests with `in` becomes an Option field (none = key absent).  Since
xmltodict only materialises a force_list key when at least one child is
present, a present key always carries a non-empty list; the model
nevertheless types them as plain lists, and Python's behaviour on the
impossible empty list (the loop body never runs) coincides with the
model's.  Name lookups of loop-carried variables that may be read
before ever being assigned (NameError) and the `[0]` on findall results
(IndexError) are modelled by Option, so the whole parse returns none
exactly when the source raises. -/

/-- An innermost relatedClinicalStatement of the evaluation chain
(lines 297-305): observationValue concept code, observationFocus
displayName and code, and the optional interpretation code list. -/
structure InnerRel where
  evalCode : LChar
  groupName : LChar
  groupCode : LChar
  interps : Option (List LChar)
deriving DecidableEq

/-- A nested substanceAdministrationEvent inside a
relatedClinicalStatement (lines 292-296): isValid value, doseNumber
value, and its own relatedClinicalStatement list (accessed
unconditionally at line 297). -/
structure InnerEvt where
  isValidV : LChar
  doseNumber : LChar
  related : List InnerRel
deriving DecidableEq

/-- A relatedClinicalStatement directly under an outer administration
event; the source iterates its substanceAdministrationEvent list
(line 292). -/
structure RelStmt where
  events : List InnerEvt
deriving DecidableEq

/-- An outer substanceAdministrationEvent (lines 284-309): id root,
substanceCode code, administrationTimeInterval high (raw timestamp),
and the optional relatedClinicalStatement list (tested at line 289). -/
structure AdminEvent where
  evId : LChar
  cvx : LChar
  adminHigh : LChar
  related : Option (List RelStmt)
deriving DecidableEq

/-- A relatedClinicalStatement of a substanceAdministrationProposal
(lines 319-328). -/
structure FRel where
  groupName : LChar
  groupCode : LChar
  conceptCode : LChar
  interps : Option (List LChar)
deriving DecidableEq

/-- proposedAdministrationTimeInterval: @low is read unconditionally
(line 333), @high only after an `in` test (line 334). -/
structure PInterval where
  low : LChar
  high : Option LChar
deriving DecidableEq

/-- A substanceAdministrationProposal (lines 313-339). -/
structure FProposal where
  subCodeSystem : LChar
  subCode : LChar
  related : List FRel
  proposed : Option PInterval
  validLow : Option LChar
deriving DecidableEq

/-- The response document as process_vmr traverses it: the optional
substanceAdministrationEvents section (tested at line 283) and the
substanceAdministrationProposals section (accessed unconditionally at
line 313). -/
structure RespDoc where
  events : Option (List AdminEvent)
  proposals : List FProposal
deriving DecidableEq

/-- One evaluation row (the 9-element list appended at lines 307/309). -/
structure EvalRow where
  rId : LChar
  rDate : LChar
  rVaccine : LChar
  rGroup : LChar
  rValidity : LChar
  rDoseNum : LChar
  rEvalCode : LChar
  rEvalInterp : LChar
  rGroupCode : LChar
deriving DecidableEq

/-- One forecast row (the 8-element list appended at line 339). -/
structure FRow where
  fGroup : LChar
  fConcept : LChar
  fInterp : LChar
  fDueDate : LChar
  fGroupCode : LChar
  fVacCode : LChar
  fEarliest : LChar
  fPastDue : LChar
deriving DecidableEq

/-- The comma-joined accumulation of interpretation codes (lines
301-305 and 324-328): each code is appended, preceded by a comma when
the accumulator is non-empty. -/
def addInterps (acc : LChar) (codes : List LChar) : LChar :=
  codes.foldl (fun a c => (if 0 < a.length then a ++ [','] else a) ++ c) acc

/-- The `if 'interpretation' in ...` guard around the accumulation. -/
def addInterpsOpt (acc : LChar) (o : Option (List LChar)) : LChar :=
  match o with
  | none => acc
  | some l => addInterps acc l

/-- The loop-carried evaluation variables that can be read (at the
append of line 307) before ever being assigned: evaluation_code,
evaluation_group, evaluation_group_code. -/
structure EvalSt where
  eCode : Option LChar
  eGroup : Option LChar
  eGroupCode : Option LChar
deriving DecidableEq

def initESt : EvalSt := ⟨none, none, none⟩

/-- One iteration of the innermost loop (lines 297-305): overwrite the
three evaluation variables from this statement and extend the
interpretation accumulator. -/
def innerRelStep (p : EvalSt × LChar) (r : InnerRel) : EvalSt × LChar :=
  (⟨some r.evalCode, some r.groupName, some r.groupCode⟩, addInterpsOpt p.2 r.interps)

/-- One iteration of the `for inside_substanceAdministrationEvent` loop
(lines 292-307): read isValid and doseNumber, reset the interpretation
accumulator, run the innermost loop, then append one row; reading a
never-assigned variable (none) is Python's NameError. -/
def innerEvtStep (ids : LChar × LChar × LChar) (acc : Option (EvalSt × List EvalRow))
    (ev : InnerEvt) : Option (EvalSt × List EvalRow) := do
  let (st, rows) ← acc
  let p := ev.related.foldl innerRelStep (st, [])
  let ec ← p.1.eCode
  let eg ← p.1.eGroup
  let egc ← p.1.eGroupCode
  return (p.1, rows ++ [⟨ids.1, ids.2.1, ids.2.2, eg, ev.isValidV, ev.doseNumber, ec, p.2, egc⟩])

/-- One iteration of the outer `for substanceAdministrationEvent` loop
(lines 284-309): extract id, cvx and the date (first 8-digit run of the
interval's @high; none is the IndexError of findall()[0]); with related
statements, run the nested loops; without, append the sentinel row. -/
def evtStep (acc : Option (EvalSt × List EvalRow)) (e : AdminEvent) :
    Option (EvalSt × List EvalRow) := do
  let (st, rows) ← acc
  let date ← yyyymmddFirst e.adminHigh
  match e.related with
  | some rels =>
      rels.foldl (fun a rel => rel.events.foldl (innerEvtStep (e.evId, date, e.cvx)) a)
        (some (st, rows))
  | none =>
      return (st, rows ++ [⟨e.evId, date, e.cvx, "Unsupported".data, "unsupported".data,
        "0".data, "UNSUPPORTED".data, [], "0".data⟩])

/-- The loop-carried forecast variables that can be read (at the append
of line 339) before ever being assigned. -/
structure FSt where
  fGroup : Option LChar
  fGroupCode : Option LChar
  fConcept : Option LChar
  fInterp : Option LChar
  fRec : Option LChar
  fPastDue : Option LChar
  fEarliest : Option LChar
deriving DecidableEq

def initFSt : FSt := ⟨none, none, none, none, none, none, none⟩

/-- One iteration of the `for relatedClinicalStatement` loop of the
forecast section (lines 319-337): every variable is (re)assigned, the
three dates defaulting to the empty string and being overwritten from
the proposal's intervals when present (a missing 8-digit run in a
present interval is the fatal IndexError). -/
def fRelStep (p : FProposal) (acc : Option FSt) (r : FRel) : Option FSt := do
  let _ ← acc
  let fi := addInterpsOpt [] r.interps
  let rdpd : Option (LChar × LChar) :=
    match p.proposed with
    | none => some ([], [])
    | some iv => do
        let rd ← yyyymmddFirst iv.low
        match iv.high with
        | none => pure (rd, [])
        | some h => do
            let pd ← yyyymmddFirst h
            pure (rd, pd)
  let (rd, pd) ← rdpd
  let ed ← match p.validLow with
    | none => some ([] : LChar)
    | some v => yyyymmddFirst v
  return ⟨some r.groupName, some r.groupCode, some r.conceptCode, some fi,
    some rd, some pd, some ed⟩

/-- One iteration of the `for substanceAdministrationProposal` loop
(lines 313-339): reset substance_code from the proposal's substance
when its code system is the CVX OID, run the related-statement loop,
then append one forecast row from the surviving variable values. -/
def fPropStep (acc : Option (FSt × List FRow)) (p : FProposal) : Option (FSt × List FRow) := do
  let (st, rows) ← acc
  let subCode := if p.subCodeSystem = "2.16.840.1.113883.12.292".data then p.subCode else []
  let st1 ← p.related.foldl (fRelStep p) (some st)
  let g ← st1.fGroup
  let gc ← st1.fGroupCode
  let fc ← st1.fConcept
  let fi ← st1.fInterp
  let rd ← st1.fRec
  let pd ← st1.fPastDue
  let ed ← st1.fEarliest
  return (st1, rows ++ [⟨g, fc, fi, rd, gc, subCode, ed, pd⟩])

/-- process_vmr (lines 271-341): the evaluation section runs only when
the substanceAdministrationEvents key is present; the forecast section
always runs.  Returns (evaluation_list, recommendation_list), or none
when the source would raise (NameError / IndexError). -/
def process_vmr (doc : RespDoc) : Option (List EvalRow × List FRow) := do
  let er ← match doc.events with
    | none => some (initESt, ([] : List EvalRow))
    | some evs => evs.foldl evtStep (some (initESt, []))
  let fr ← doc.proposals.foldl fPropStep (some (initFSt, []))
  return (er.2, fr.2)

/-! ## The transport wrapper (send_request)

send_request wraps the vMR in the SOAP envelope and posts it; the
envelope construction, base64 round-trip and payload extraction of the
success path are abstracted into the `payload` argument (the decoded
response the remote call carries).  What is embedded is the outcome
dispatch of lines 261-268: status 200 returns the decoded payload, any
other status prints a diagnostic and returns the literal string
"crap". -/

def CRAP : LChar := "crap".data

def send_request (status : Nat) (payload : LChar) : LChar :=
  if status = 200 then payload else CRAP

/-! ## Fresh-identifier model

str(uuid.uuid4()) always yields a 36-character string over the
hex-digit/hyphen alphabet (8-4-4-4-12 lowercase hex groups).  A uuid
supply is valid when every drawn identifier has that shape; the two
facts the development uses are the fixed length and the alphabet. -/

/-- The characters that can occur in str(uuid.uuid4()). -/
def uuidChar (c : Char) : Bool :=
  ('0' ≤ c && c ≤ '9') || ('a' ≤ c && c ≤ 'f') || c = '-'

/-- A uuid supply drawing only UUID-shaped strings. -/
def validU (u : Nat → LChar) : Prop :=
  ∀ i, (u i).length = 36 ∧ ∀ c ∈ u i, uuidChar c = true

/-- Two strings are identical except for embedded fresh identifiers:
they decompose into the same interleaving of equal literal characters
and aligned 36-character UUID-shaped blocks.  Since the blocks have
equal length, related strings have the same length and agree at every
character position outside the identifier blocks. -/
inductive ExceptIds : LChar → LChar → Prop
  | nil : ExceptIds [] []
  | ch (c : Char) {s t : LChar} : ExceptIds s t → ExceptIds (c :: s) (c :: t)
  | blk {a b : LChar} {s t : LChar} :
      a.length = 36 → (∀ c ∈ a, uuidChar c = true) →
      b.length = 36 → (∀ c ∈ b, uuidChar c = true) →
      ExceptIds s t → ExceptIds (a ++ s) (b ++ t)

/-! ## Concrete documents used as witnesses and counterexamples -/

/-- An administration event without related clinical statements. -/
def c4Evt : AdminEvent := ⟨"imm9".data, "107".data, "20160101".data, none⟩

def c4Doc : RespDoc := ⟨some [c4Evt], []⟩

/-- Two sibling innermost related statements under one inner event,
each carrying its own interpretation code. -/
def c5InnerA : InnerRel := ⟨"EVALUATION_A".data, "Group1".data, "100".data, some ["CODE_A".data]⟩

def c5InnerB : InnerRel := ⟨"EVALUATION_B".data, "Group2".data, "110".data, some ["CODE_B".data]⟩

def c5Evt : AdminEvent :=
  ⟨"imm1".data, "03".data, "20150101".data,
    some [⟨[⟨"true".data, "1".data, [c5InnerA, c5InnerB]⟩]⟩]⟩

def c5Doc : RespDoc := ⟨some [c5Evt], []⟩

/-- The single row the parser actually emits for c5Doc. -/
def c5Row : EvalRow :=
  ⟨"imm1".data, "20150101".data, "03".data, "Group2".data, "true".data, "1".data,
    "EVALUATION_B".data, "CODE_A,CODE_B".data, "110".data⟩

/-- A proposal with two related statements, for the C3 witness. -/
def c3RelA : FRel := ⟨"HepB".data, "100".data, "RECOMMENDED".data, some ["DUE_NOW".data]⟩

def c3RelB : FRel :=
  ⟨"MMR".data, "500".data, "FUTURE_RECOMMENDED".data,
    some ["DUE_IN_FUTURE".data, "HIGH_RISK".data]⟩

def c3Prop : FProposal :=
  ⟨"2.16.840.1.113883.12.292".data, "03".data, [c3RelA, c3RelB],
    some ⟨"20250101000000".data, none⟩, none⟩

/-! ## Helper lemmas -/

/-- A string matched by RE_SCT is non-empty. -/
theorem re_sct_match_pos (s : LChar) (h : re_sct_match s = true) : 0 < s.length := by
  cases s with
  | nil => exact absurd h (by decide)
  | cons c cs => simp

/-- RE_SCT re.match only looks at the first six characters: appending
anything to a matched string keeps it matched. -/
theorem re_sct_match_mono (s t : LChar) (h : re_sct_match s = true) :
    re_sct_match (s ++ t) = true := by
  rcases s with _ | ⟨c0, _ | ⟨c1, _ | ⟨c2, _ | ⟨c3, _ | ⟨c4, _ | ⟨c5, rest⟩⟩⟩⟩⟩⟩ <;>
    simp_all [re_sct_match]

/-- RE_ICD10 re.match only looks at the first three characters. -/
theorem re_icd10_match_mono (s t : LChar) (h : re_icd10_match s = true) :
    re_icd10_match (s ++ t) = true := by
  rcases s with _ | ⟨c0, _ | ⟨c1, _ | ⟨c2, rest⟩⟩⟩ <;> simp_all [re_icd10_match]

/-- RE_ICD9 re.match is a prefix match: appending characters never
destroys a match. -/
theorem re_icd9_match_mono (s t : LChar) (h : re_icd9_match s = true) :
    re_icd9_match (s ++ t) = true := by
  rcases s with _ | ⟨c0, _ | ⟨c1, _ | ⟨c2, _ | ⟨c3, rest⟩⟩⟩⟩ <;>
    rcases t with _ | ⟨d0, _ | ⟨d1, t'⟩⟩ <;> simp_all [re_icd9_match] <;> tauto

/-- The head of split(':') contains no colon. -/
theorem splitColon0_no_colon (s : LChar) : ':' ∉ splitColon0 s := by
  intro hmem
  have := List.mem_takeWhile_imp hmem
  simp at this

/-- When the code contains a colon, split(':')[0] is the part strictly
before the first colon. -/
theorem splitColon0_decomp (s : LChar) (h : ':' ∈ s) :
    ∃ suf, s = splitColon0 s ++ ':' :: suf := by
  induction s with
  | nil => cases h
  | cons c cs ih =>
      by_cases hc : c = ':'
      · subst hc
        exact ⟨cs, by simp [splitColon0, List.takeWhile]⟩
      · have hmem : ':' ∈ cs := by
          cases h with
          | head => exact absurd rfl hc
          | tail _ h => exact h
        obtain ⟨suf, hsuf⟩ := ih hmem
        refine ⟨suf, ?_⟩
        have hstep : splitColon0 (c :: cs) = c :: splitColon0 cs := by
          simp [splitColon0, List.takeWhile_cons, hc]
        rw [hstep, List.cons_append, ← hsuf]

/-- An immunization entry whose kind is neither "I" nor "D" leaves the
loop state untouched. -/
theorem izLoopStep_skip (u : Nat → LChar) (st : LChar × LChar × Nat) (iz : Iz)
    (hI : iz.izKind ≠ "I".data) (hD : iz.izKind ≠ "D".data) :
    izLoopStep u st iz = st := by
  unfold izLoopStep
  simp only [if_neg hI, if_neg hD]
  split <;> rfl

/-- A successful forecast related-statement iteration sets the four
loop variables of the claim from exactly the statement it processed. -/
theorem fRelStep_fields (p : FProposal) (a : Option FSt) (r : FRel) (st1 : FSt)
    (h : fRelStep p a r = some st1) :
    st1.fGroup = some r.groupName ∧ st1.fGroupCode = some r.groupCode
    ∧ st1.fConcept = some r.conceptCode
    ∧ st1.fInterp = some (addInterpsOpt [] r.interps) := by
  cases a with
  | none => simp [fRelStep] at h
  | some st0 =>
      simp only [fRelStep, Option.bind_eq_bind, Option.some_bind,
        Option.bind_eq_some] at h
      obtain ⟨⟨rd, pd⟩, -, h⟩ := h
      rcases hpv : p.validLow with _ | v <;>
          simp only [hpv, Option.pure_def, Option.bind_eq_some, Option.some.injEq] at h
      · obtain rfl := h.symm
        exact ⟨rfl, rfl, rfl, rfl⟩
      · obtain ⟨y, -, h⟩ := h
        obtain rfl := h.symm
        exact ⟨rfl, rfl, rfl, rfl⟩

/-- Folding the forecast related-statement loop over a non-empty list
leaves the last statement's values in the loop variables. -/
theorem fRel_foldl_fields (p : FProposal) (l : List FRel) (hne : l ≠ []) (a : Option FSt)
    (st1 : FSt) (h : l.foldl (fRelStep p) a = some st1) :
    st1.fGroup = some ((l.getLast hne).groupName)
    ∧ st1.fGroupCode = some ((l.getLast hne).groupCode)
    ∧ st1.fConcept = some ((l.getLast hne).conceptCode)
    ∧ st1.fInterp = some (addInterpsOpt [] ((l.getLast hne).interps)) := by
  rcases List.eq_nil_or_concat l with rfl | ⟨L, r, rfl⟩
  · exact absurd rfl hne
  · simp only [List.concat_eq_append] at h ⊢
    rw [List.foldl_append, List.foldl_cons, List.foldl_nil] at h
    have hf := fRelStep_fields p _ r st1 h
    simpa [List.getLast_concat] using hf

/-- The interpretation accumulator threaded by the innermost evaluation
loop is exactly the comma-join fold over the statements' interpretation
lists. -/
theorem innerRel_foldl_snd (l : List InnerRel) (q : EvalSt × LChar) :
    (l.foldl innerRelStep q).2 = l.foldl (fun a r => addInterpsOpt a r.interps) q.2 := by
  induction l generalizing q with
  | nil => rfl
  | cons r l ih => simp [List.foldl_cons, ih, innerRelStep]

/-- After the innermost evaluation loop over a non-empty list, the
evaluation code / group / group-code variables hold the values of the
last statement. -/
theorem innerRel_foldl_fst (l : List InnerRel) (hne : l ≠ []) (q : EvalSt × LChar) :
    (l.foldl innerRelStep q).1
      = ⟨some ((l.getLast hne).evalCode), some ((l.getLast hne).groupName),
         some ((l.getLast hne).groupCode)⟩ := by
  rcases List.eq_nil_or_concat l with rfl | ⟨L, r, rfl⟩
  · exact absurd rfl hne
  · simp only [List.concat_eq_append]
    rw [List.foldl_append, List.foldl_cons, List.foldl_nil]
    simp [List.getLast_concat, innerRelStep]

/-! ### Lemmas about the ExceptIds relation and pyReplace -/

theorem exceptIds_refl (s : LChar) : ExceptIds s s := by
  induction s with
  | nil => exact ExceptIds.nil
  | cons c s ih => exact ExceptIds.ch c ih

theorem exceptIds_symm {s t : LChar} (h : ExceptIds s t) : ExceptIds t s := by
  induction h with
  | nil => exact ExceptIds.nil
  | ch c _ ih => exact ExceptIds.ch c ih
  | blk ha hau hb hbu _ ih => exact ExceptIds.blk hb hbu ha hau ih

theorem exceptIds_append {s1 t1 s2 t2 : LChar} (h1 : ExceptIds s1 t1)
    (h2 : ExceptIds s2 t2) : ExceptIds (s1 ++ s2) (t1 ++ t2) := by
  induction h1 with
  | nil => exact h2
  | ch c _ ih => exact ExceptIds.ch c ih
  | blk ha hau hb hbu _ ih =>
      rw [List.append_assoc, List.append_assoc]
      exact ExceptIds.blk ha hau hb hbu ih

theorem exceptIds_length {s t : LChar} (h : ExceptIds s t) : s.length = t.length := by
  induction h with
  | nil => rfl
  | ch c _ ih => simpa using ih
  | blk ha _ hb _ _ ih => simp [ha, hb, ih]

/-- Two UUID-shaped strings are related as a single identifier block. -/
theorem exceptIds_uuid {a b : LChar} (ha : a.length = 36) (hau : ∀ c ∈ a, uuidChar c = true)
    (hb : b.length = 36) (hbu : ∀ c ∈ b, uuidChar c = true) : ExceptIds a b := by
  have h := ExceptIds.blk ha hau hb hbu ExceptIds.nil
  simpa using h

theorem pyReplace_nil (pat rep : LChar) : pyReplace pat rep [] = [] := by
  rw [pyReplace]

theorem pyReplace_cons_match (pat rep : LChar) (c : Char) (s : LChar)
    (h : isPfx pat (c :: s) = true) :
    pyReplace pat rep (c :: s) = rep ++ pyReplace pat rep (s.drop (pat.length - 1)) := by
  rw [pyReplace]
  simp [h]

theorem pyReplace_cons_nomatch (pat rep : LChar) (c : Char) (s : LChar)
    (h : isPfx pat (c :: s) = false) :
    pyReplace pat rep (c :: s) = c :: pyReplace pat rep s := by
  rw [pyReplace]
  simp [h]

theorem isPfx_append_of_le : ∀ (m a x : LChar), isPfx m (a ++ x) = true →
    m.length ≤ a.length → isPfx m a = true
  | [], _, _, _, _ => rfl
  | c :: m', [], _, _, hle => by simp at hle
  | c :: m', b :: a', x, h, hle => by
      simp only [List.cons_append, isPfx, Bool.and_eq_true, decide_eq_true_eq] at h ⊢
      exact ⟨h.1, isPfx_append_of_le m' a' x h.2 (by simpa using hle)⟩

theorem isPfx_mem : ∀ (m a : LChar), isPfx m a = true → ∀ c ∈ m, c ∈ a
  | [], _, _, c, hc => absurd hc (List.not_mem_nil c)
  | c0 :: m', [], h, _, _ => by simp [isPfx] at h
  | c0 :: m', b :: a', h, c, hc => by
      simp only [isPfx, Bool.and_eq_true, decide_eq_true_eq] at h
      rcases List.mem_cons.mp hc with rfl | hc'
      · rw [h.1]
        exact List.mem_cons_self b a'
      · exact List.mem_cons_of_mem b (isPfx_mem m' a' h.2 c hc')

/-- Every non-empty suffix of the observation placeholder contains the
character '>', which cannot occur in a UUID. -/
theorem marker_drop_bounded : ∀ k : Nat, k ≤ 21 →
    OBS_MARKER.drop k = [] ∨ '>' ∈ OBS_MARKER.drop k := by decide

theorem marker_suffix_gt (k : Nat) (h : OBS_MARKER.drop k ≠ []) : '>' ∈ OBS_MARKER.drop k := by
  by_cases hk : k ≤ 21
  · rcases marker_drop_bounded k hk with h0 | h0
    · exact absurd h0 h
    · exact h0
  · exfalso
    apply h
    apply List.drop_eq_nil_of_le
    have hlen : OBS_MARKER.length = 21 := by decide
    omega

/-- Matching the placeholder transfers along ExceptIds: the marker can
never overlap an identifier block (every non-empty suffix of the marker
contains '>', no UUID character is '>', and at 21 characters the marker
is shorter than a 36-character block), so a prefix match on one side is
a prefix match on the other and the remainders stay related. -/
theorem exceptIds_isPfx {s t : LChar} (h : ExceptIds s t) :
    ∀ m : LChar, (∃ k, m = OBS_MARKER.drop k) → m ≠ [] → isPfx m s = true →
      isPfx m t = true ∧ ExceptIds (s.drop m.length) (t.drop m.length) := by
  induction h with
  | nil =>
      intro m _ hne hp
      cases m with
      | nil => exact absurd rfl hne
      | cons c m' => simp [isPfx] at hp
  | ch c hst ih =>
      intro m hm hne hp
      cases m with
      | nil => exact absurd rfl hne
      | cons m0 m' =>
          simp only [isPfx, Bool.and_eq_true, decide_eq_true_eq] at hp
          obtain ⟨rfl, hp'⟩ := hp
          by_cases hm' : m' = []
          · subst hm'
            refine ⟨by simp [isPfx], ?_⟩
            simpa using hst
          · obtain ⟨k, hk⟩ := hm
            have hm'suf : ∃ k', m' = OBS_MARKER.drop k' := by
              refine ⟨k + 1, ?_⟩
              have : (OBS_MARKER.drop k).tail = OBS_MARKER.drop (k + 1) := by
                rw [List.tail_drop]
              rw [← this, ← hk]
              rfl
            obtain ⟨hpt, hdrop⟩ := ih m' hm'suf hm' hp'
            refine ⟨by simp [isPfx, hpt], ?_⟩
            simpa using hdrop
  | blk ha hau _ _ _ _ =>
      intro m hm hne hp
      exfalso
      obtain ⟨k, hk⟩ := hm
      have hmlen : m.length ≤ 21 := by
        rw [hk, List.length_drop]
        have hlen : OBS_MARKER.length = 21 := by decide
        omega
      have hma : isPfx m _ = true := isPfx_append_of_le m _ _ hp (by omega)
      have hgt : '>' ∈ m := by
        rw [hk]
        exact marker_suffix_gt k (by rw [← hk]; exact hne)
      have huu : uuidChar '>' = true := hau '>' (isPfx_mem m _ hma '>' hgt)
      exact absurd huu (by decide)

/-- pyReplace never matches the placeholder inside a UUID-shaped block:
scanning walks through such characters untouched, because the marker
starts with '<' and no UUID character is '<'. -/
theorem pyReplace_uuid_skip (rep : LChar) :
    ∀ (a x : LChar), (∀ c ∈ a, uuidChar c = true) →
      pyReplace OBS_MARKER rep (a ++ x) = a ++ pyReplace OBS_MARKER rep x
  | [], _, _ => by simp
  | c :: a', x, hau => by
      have hc : uuidChar c = true := hau c (List.mem_cons_self c a')
      have hne : ¬ ('<' = c) := by
        intro h
        rw [← h] at hc
        exact absurd hc (by decide)
      have hpf : isPfx OBS_MARKER (c :: (a' ++ x)) = false := by
        have hmk : OBS_MARKER = '<' :: "observationResults/>".data := rfl
        rw [hmk]
        simp only [isPfx, Bool.and_eq_true_iff, Bool.and_eq_false_iff,
          decide_eq_false_iff_not]
        exact Or.inl hne
      rw [List.cons_append, pyReplace_cons_nomatch _ _ _ _ hpf,
        pyReplace_uuid_skip rep a' x (fun d hd => hau d (List.mem_cons_of_mem _ hd)),
        List.cons_append]

/-- Replacing the placeholder preserves ExceptIds: the match decisions
agree on both sides (matches never involve identifier blocks), so the
outputs are the same interleaving of literal text and replacement
copies, with the identifier blocks carried through. -/
theorem pyReplace_exceptIds (rep1 rep2 : LChar) (hrep : ExceptIds rep1 rep2) :
    ∀ (n : Nat) (s t : LChar), s.length ≤ n → ExceptIds s t →
      ExceptIds (pyReplace OBS_MARKER rep1 s) (pyReplace OBS_MARKER rep2 t) := by
  intro n
  induction n with
  | zero =>
      intro s t hlen h
      have hs : s = [] := List.eq_nil_of_length_eq_zero (Nat.le_zero.mp hlen)
      subst hs
      have ht : t = [] := List.eq_nil_of_length_eq_zero ((exceptIds_length h).symm)
      subst ht
      rw [pyReplace_nil, pyReplace_nil]
      exact ExceptIds.nil
  | succ n ih =>
      intro s t hlen h
      cases h with
      | nil =>
          rw [pyReplace_nil, pyReplace_nil]
          exact ExceptIds.nil
      | ch c hst =>
          rename_i s₀ t₀
          by_cases hp : isPfx OBS_MARKER (c :: s₀) = true
          · obtain ⟨hpt, hdrop⟩ :=
              exceptIds_isPfx (ExceptIds.ch c hst) OBS_MARKER ⟨0, rfl⟩ (by decide) hp
            rw [pyReplace_cons_match _ _ _ _ hp, pyReplace_cons_match _ _ _ _ hpt]
            refine exceptIds_append hrep (ih _ _ ?_ ?_)
            · have hdl : (s₀.drop (OBS_MARKER.length - 1)).length ≤ s₀.length := by
                rw [List.length_drop]
                omega
              have hs₀ : s₀.length ≤ n := by simpa using hlen
              omega
            · exact hdrop
          · have hp0 : isPfx OBS_MARKER (c :: s₀) = false := by simpa using hp
            have hpt : isPfx OBS_MARKER (c :: t₀) = false := by
              by_contra hne
              have hpt' : isPfx OBS_MARKER (c :: t₀) = true := by simpa using hne
              obtain ⟨hps, -⟩ := exceptIds_isPfx (exceptIds_symm (ExceptIds.ch c hst))
                OBS_MARKER ⟨0, rfl⟩ (by decide) hpt'
              rw [hps] at hp0
              exact absurd hp0 (by decide)
            rw [pyReplace_cons_nomatch _ _ _ _ hp0, pyReplace_cons_nomatch _ _ _ _ hpt]
            exact ExceptIds.ch c (ih s₀ t₀ (by simpa using hlen) hst)
      | blk ha hau hb hbu hst =>
          rename_i a b s₀ t₀
          rw [pyReplace_uuid_skip rep1 _ _ hau, pyReplace_uuid_skip rep2 _ _ hbu]
          refine ExceptIds.blk ha hau hb hbu (ih s₀ t₀ ?_ hst)
          rw [List.length_append, ha] at hlen
          omega

/-- Two renderings of the header that differ only in the fresh patient
wrapper id are identical except for that identifier block. -/
theorem renderHeader_rel {ua ub : LChar} (ha : ua.length = 36)
    (hau : ∀ c ∈ ua, uuidChar c = true) (hb : ub.length = 36)
    (hbu : ∀ c ∈ ub, uuidChar c = true) (dob gender : LChar) :
    ExceptIds (renderHeader ua dob gender) (renderHeader ub dob gender) := by
  unfold renderHeader
  exact exceptIds_append (exceptIds_append (exceptIds_append (exceptIds_append
    (exceptIds_append (exceptIds_append (exceptIds_refl VMR_HEADER_P1)
      (exceptIds_uuid ha hau hb hbu)) (exceptIds_refl VMR_HEADER_P2))
      (exceptIds_refl dob)) (exceptIds_refl VMR_HEADER_P3))
      (exceptIds_refl gender)) (exceptIds_refl VMR_HEADER_P4)

/-- Two renderings of an administration-event fragment differing only
in the fresh substance id. -/
theorem renderIz_rel {ua ub : LChar} (ha : ua.length = 36)
    (hau : ∀ c ∈ ua, uuidChar c = true) (hb : ub.length = 36)
    (hbu : ∀ c ∈ ub, uuidChar c = true) (izId code date : LChar) :
    ExceptIds (renderIz izId ua code date) (renderIz izId ub code date) := by
  unfold renderIz
  exact exceptIds_append (exceptIds_append (exceptIds_append (exceptIds_append
    (exceptIds_append (exceptIds_append (exceptIds_append (exceptIds_append
      (exceptIds_refl (VMR_IZ_P1 ++ izId ++ VMR_IZ_P2))
      (exceptIds_uuid ha hau hb hbu)) (exceptIds_refl VMR_IZ_P3))
      (exceptIds_refl code)) (exceptIds_refl VMR_IZ_P4)) (exceptIds_refl date))
      (exceptIds_refl VMR_IZ_P5)) (exceptIds_refl date)) (exceptIds_refl VMR_IZ_P6)

/-- Two renderings of a disease-observation fragment differing only in
the fresh observation id. -/
theorem renderDisease_rel {ua ub : LChar} (ha : ua.length = 36)
    (hau : ∀ c ∈ ua, uuidChar c = true) (hb : ub.length = 36)
    (hbu : ∀ c ∈ ub, uuidChar c = true) (code oid date : LChar) :
    ExceptIds (renderDisease ua code oid date) (renderDisease ub code oid date) := by
  unfold renderDisease
  exact exceptIds_append (exceptIds_append (exceptIds_append (exceptIds_append
    (exceptIds_append (exceptIds_append (exceptIds_append (exceptIds_append
      (exceptIds_append (exceptIds_append (exceptIds_refl VMR_DISEASE_P1)
        (exceptIds_uuid ha hau hb hbu)) (exceptIds_refl VMR_DISEASE_P2))
        (exceptIds_refl code)) (exceptIds_refl VMR_DISEASE_P3))
        (exceptIds_refl oid)) (exceptIds_refl VMR_DISEASE_P4)) (exceptIds_refl date))
        (exceptIds_refl VMR_DISEASE_P5)) (exceptIds_refl date))
        (exceptIds_refl VMR_DISEASE_P6)

/-- The immunization-kind branch of the loop body. -/
theorem izLoopStep_eq_I (u : Nat → LChar) (b o : LChar) (k : Nat) (iz : Iz)
    (hcl : 0 < (splitColon0 iz.izCode).length) (hd : 0 < iz.izDate.length)
    (hI : iz.izKind = "I".data) :
    izLoopStep u (b, o, k) iz
      = (b ++ renderIz iz.izId (u k) (splitColon0 iz.izCode) iz.izDate, o, k + 1) := by
  have hD : ¬ iz.izKind = "D".data := by rw [hI]; decide
  simp [izLoopStep, hcl, hd, hI, hD]

/-- The disease-kind branch of the loop body. -/
theorem izLoopStep_eq_D (u : Nat → LChar) (b o : LChar) (k : Nat) (iz : Iz)
    (hcl : 0 < (splitColon0 iz.izCode).length) (hd : 0 < iz.izDate.length)
    (hD : iz.izKind = "D".data) :
    izLoopStep u (b, o, k) iz
      = (b,
         (match classify (splitColon0 iz.izCode) with
          | some oid => o ++ renderDisease (u k) (splitColon0 iz.izCode) oid iz.izDate
          | none => o),
         (match classify (splitColon0 iz.izCode) with
          | some _ => k + 1
          | none => k)) := by
  have hI : ¬ iz.izKind = "I".data := by rw [hD]; decide
  cases hcls : classify (splitColon0 iz.izCode) <;> simp [izLoopStep, hcl, hd, hI, hD, hcls]

/-- One loop iteration preserves the except-identifiers relation
between two runs over the same record with different uuid supplies,
and keeps the uuid counters in lockstep. -/
theorem izLoopStep_rel (u1 u2 : Nat → LChar) (h1 : validU u1) (h2 : validU u2) (iz : Iz)
    (b1 b2 o1 o2 : LChar) (k : Nat) (hb : ExceptIds b1 b2) (ho : ExceptIds o1 o2) :
    ExceptIds (izLoopStep u1 (b1, o1, k) iz).1 (izLoopStep u2 (b2, o2, k) iz).1
    ∧ ExceptIds (izLoopStep u1 (b1, o1, k) iz).2.1 (izLoopStep u2 (b2, o2, k) iz).2.1
    ∧ (izLoopStep u1 (b1, o1, k) iz).2.2 = (izLoopStep u2 (b2, o2, k) iz).2.2 := by
  by_cases hcl : 0 < (splitColon0 iz.izCode).length
  · by_cases hd : 0 < iz.izDate.length
    · by_cases hI : iz.izKind = "I".data
      · rw [izLoopStep_eq_I u1 b1 o1 k iz hcl hd hI, izLoopStep_eq_I u2 b2 o2 k iz hcl hd hI]
        exact ⟨exceptIds_append hb
          (renderIz_rel (h1 k).1 (h1 k).2 (h2 k).1 (h2 k).2 _ _ _), ho, rfl⟩
      · by_cases hD : iz.izKind = "D".data
        · rw [izLoopStep_eq_D u1 b1 o1 k iz hcl hd hD,
            izLoopStep_eq_D u2 b2 o2 k iz hcl hd hD]
          cases hcls : classify (splitColon0 iz.izCode) with
          | none => simp only [hcls]; exact ⟨hb, ho, trivial⟩
          | some oid =>
              simp only [hcls]
              exact ⟨hb, exceptIds_append ho
                (renderDisease_rel (h1 k).1 (h1 k).2 (h2 k).1 (h2 k).2 _ _ _), trivial⟩
        · rw [izLoopStep_skip u1 _ iz hI hD, izLoopStep_skip u2 _ iz hI hD]
          exact ⟨hb, ho, rfl⟩
    · have hskip : ∀ (u : Nat → LChar) (b o : LChar), izLoopStep u (b, o, k) iz = (b, o, k) := by
        intro u b o
        simp [izLoopStep, hd]
      rw [hskip u1 b1 o1, hskip u2 b2 o2]
      exact ⟨hb, ho, rfl⟩
  · have hskip : ∀ (u : Nat → LChar) (b o : LChar), izLoopStep u (b, o, k) iz = (b, o, k) := by
      intro u b o
      simp [izLoopStep, hcl]
    rw [hskip u1 b1 o1, hskip u2 b2 o2]
    exact ⟨hb, ho, rfl⟩

/-- The whole immunization loop preserves the relation. -/
theorem izLoop_rel (u1 u2 : Nat → LChar) (h1 : validU u1) (h2 : validU u2) :
    ∀ (izs : List Iz) (s1 s2 : LChar × LChar × Nat),
      ExceptIds s1.1 s2.1 → ExceptIds s1.2.1 s2.2.1 → s1.2.2 = s2.2.2 →
      ExceptIds (izLoop u1 s1 izs).1 (izLoop u2 s2 izs).1
      ∧ ExceptIds (izLoop u1 s1 izs).2.1 (izLoop u2 s2 izs).2.1
      ∧ (izLoop u1 s1 izs).2.2 = (izLoop u2 s2 izs).2.2 := by
  intro izs
  induction izs with
  | nil =>
      intro s1 s2 hb ho hk
      exact ⟨hb, ho, hk⟩
  | cons iz izs ih =>
      rintro ⟨b1, o1, k1⟩ ⟨b2, o2, k2⟩ hb ho hk
      dsimp only at hb ho hk
      subst hk
      obtain ⟨hb', ho', hk'⟩ := izLoopStep_rel u1 u2 h1 h2 iz b1 b2 o1 o2 k1 hb ho
      exact ih (izLoopStep u1 (b1, o1, k1) iz) (izLoopStep u2 (b2, o2, k1) iz) hb' ho' hk'

/-! ## Claims -/

/-- C2 (counterexample).  The claim states that the date-extraction
step on the timestamp "2021-05-01T10:00:00-05:00" returns "20210501".
In fact RE_YYYYMMDD requires eight consecutive digits, the separators
interrupt every digit run of this string, so findall returns no match
and the `[0]` raises: the extraction yields no date at all, and a
Document Parser event carrying this timestamp aborts the parse. -/
theorem c2_extract_cex :
    yyyymmddFirst "2021-05-01T10:00:00-05:00".data ≠ some "20210501".data
    ∧ yyyymmddFirst "2021-05-01T10:00:00-05:00".data = none
    ∧ evtStep (some (initESt, []))
        ⟨"id1".data, "03".data, "2021-05-01T10:00:00-05:00".data, none⟩ = none := by
  refine ⟨by decide, by decide, by decide⟩

/-- C2 (amended).  The date-extraction step returns the first run of
exactly eight consecutive digits; "2021-05-01T10:00:00-05:00" contains
no such run, so the extraction fails (a fatal error for that field),
while a compact timestamp such as "20210501100000-0500" does extract
"20210501". -/
theorem c2_extract_amended :
    yyyymmddFirst "2021-05-01T10:00:00-05:00".data = none
    ∧ yyyymmddFirst "20210501100000-0500".data = some "20210501".data
    ∧ yyyymmddFirst "20210501".data = some "20210501".data := by
  refine ⟨by decide, by decide, by decide⟩

/-- C6 (counterexample).  The claim states classification is
case-independent and only succeeds when the whole code matches a
pattern.  Both parts fail: the patterns contain only the uppercase
classes, so the case variant "a00" of "A00" classifies differently
(none versus ICD-10); and re.match is an anchored prefix match, so
"12!" is classified ICD-9 although the whole string matches no
pattern (its digit prefix "12" does). -/
theorem c6_classify_cex :
    "a00".data.map Char.toUpper = "A00".data
    ∧ classify "a00".data = none
    ∧ classify "A00".data = some ICD10_OID
    ∧ classify "a00".data ≠ classify "A00".data
    ∧ classify "12!".data = some ICD9_OID := by
  refine ⟨by decide, by decide, by decide, by decide, by decide⟩

/-- C6 (amended).  Classification for Disease-kind entries evaluates
RE_SCT, then RE_ICD10, then RE_ICD9, first match wins — but each
pattern is matched case-sensitively (uppercase letter classes only)
and as a prefix anchored at the start of the code: appending trailing
characters never destroys a match, so a code is classified whenever a
prefix of it matches, not only when the whole code does. -/
theorem c6_classify_amended (s t : LChar) :
    (re_sct_match s = true → classify s = some SCT_OID)
    ∧ (re_sct_match s = false → re_icd10_match s = true → classify s = some ICD10_OID)
    ∧ (re_sct_match s = false → re_icd10_match s = false → re_icd9_match s = true →
        classify s = some ICD9_OID)
    ∧ (re_sct_match s = false → re_icd10_match s = false → re_icd9_match s = false →
        classify s = none)
    ∧ (re_sct_match s = true → re_sct_match (s ++ t) = true)
    ∧ (re_icd10_match s = true → re_icd10_match (s ++ t) = true)
    ∧ (re_icd9_match s = true → re_icd9_match (s ++ t) = true) := by
  refine ⟨fun h => by simp [classify, h],
    fun h1 h2 => by simp [classify, h1, h2],
    fun h1 h2 h3 => by simp [classify, h1, h2, h3],
    fun h1 h2 h3 => by simp [classify, h1, h2, h3],
    re_sct_match_mono s t,
    re_icd10_match_mono s t,
    re_icd9_match_mono s t⟩

/-- Witness for C6 (amended): the ICD-9 branch on the concrete code
"045" of the spec's end-to-end scenario, and prefix-match monotonicity
on a concrete extension. -/
theorem c6_classify_amended_witness :
    classify "045".data = some ICD9_OID ∧ re_icd9_match ("045".data ++ "X".data) = true := by
  have h := c6_classify_amended "045".data "X".data
  exact ⟨h.2.2.1 (by decide) (by decide) (by decide), h.2.2.2.2.2.2 (by decide)⟩

/-- C7 (counterexample).  The claim states a non-success status is
surfaced as a distinct transport-error outcome and placeholder data is
never substituted for a Response Document.  In fact send_request
returns the fixed string "crap" on any non-200 status — placeholder
data, not an error value — and that outcome coincides with the return
of a successful call whose decoded payload happens to be the same
string, so it is not distinct. -/
theorem c7_send_request_cex :
    send_request 500 "whatever".data = CRAP
    ∧ send_request 200 CRAP = CRAP
    ∧ send_request 500 "whatever".data = send_request 200 CRAP := by
  refine ⟨by decide, by decide, by decide⟩

/-- C7 (amended).  When the remote call returns a non-success status,
send_request prints a diagnostic and returns the fixed placeholder
string "crap" in place of a Response Document; the failure is not a
distinct error outcome. -/
theorem c7_send_request_amended (status : Nat) (payload : LChar) (h : status ≠ 200) :
    send_request status payload = CRAP := by
  simp [send_request, h]

/-- Witness for C7 (amended) at status 404. -/
theorem c7_send_request_amended_witness : send_request 404 "vmr".data = CRAP :=
  c7_send_request_amended 404 "vmr".data (by decide)

/-- C1.  For a Disease-kind entry whose code (the part before any
colon) matches RE_SCT, the loop iteration of data2vmr appends to the
observation accumulator exactly the VMR_DISEASE fragment rendered with
the SNOMED CT OID — and that OID differs from both ICD OIDs, so the
fragment never carries 2.16.840.1.113883.6.103 or
2.16.840.1.113883.6.90 as its coding system, even when the code also
matches an ICD pattern: RE_SCT is tested first. -/
theorem c1_sct_priority (u : Nat → LChar) (b o : LChar) (k : Nat) (iz : Iz)
    (hk : iz.izKind = "D".data)
    (hs : re_sct_match (splitColon0 iz.izCode) = true)
    (hd : 0 < iz.izDate.length) :
    izLoopStep u (b, o, k) iz
      = (b, o ++ renderDisease (u k) (splitColon0 iz.izCode) SCT_OID iz.izDate, k + 1)
    ∧ SCT_OID ≠ ICD9_OID ∧ SCT_OID ≠ ICD10_OID := by
  have hcl : 0 < (splitColon0 iz.izCode).length := re_sct_match_pos _ hs
  have hclassify : classify (splitColon0 iz.izCode) = some SCT_OID := by
    simp [classify, hs]
  refine ⟨?_, by decide, by decide⟩
  simp [izLoopStep, hk, hclassify, hcl, hd]

/-- Witness for C1: a Disease entry with code "123456: measles". -/
theorem c1_sct_priority_witness :
    izLoopStep (fun _ => "u0".data) ([], [], 5)
        ⟨"1".data, "20150101".data, "123456: measles".data, "D".data⟩
      = ([], [] ++ renderDisease "u0".data (splitColon0 "123456: measles".data) SCT_OID
            "20150101".data, 5 + 1)
    ∧ SCT_OID ≠ ICD9_OID ∧ SCT_OID ≠ ICD10_OID :=
  c1_sct_priority (fun _ => "u0".data) [] [] 5
    ⟨"1".data, "20150101".data, "123456: measles".data, "D".data⟩
    (by decide) (by decide) (by decide)

/-- C9.  For a Disease-kind entry whose code field contains a colon,
the loop iteration of data2vmr classifies and embeds only the part of
the code strictly before the first colon: that part contains no colon,
differs from the full code field, and it is the string handed both to
the classifier and to the emitted observation fragment. -/
theorem c9_code_before_colon (u : Nat → LChar) (b o : LChar) (k : Nat) (iz : Iz)
    (hk : iz.izKind = "D".data)
    (hc : ':' ∈ iz.izCode)
    (hcl : 0 < (splitColon0 iz.izCode).length)
    (hd : 0 < iz.izDate.length) :
    (':' ∉ splitColon0 iz.izCode)
    ∧ (∃ suf, iz.izCode = splitColon0 iz.izCode ++ ':' :: suf)
    ∧ splitColon0 iz.izCode ≠ iz.izCode
    ∧ izLoopStep u (b, o, k) iz
        = (b,
           (match classify (splitColon0 iz.izCode) with
            | some oid => o ++ renderDisease (u k) (splitColon0 iz.izCode) oid iz.izDate
            | none => o),
           (match classify (splitColon0 iz.izCode) with
            | some _ => k + 1
            | none => k)) := by
  have hnc := splitColon0_no_colon iz.izCode
  refine ⟨hnc, splitColon0_decomp iz.izCode hc, ?_, ?_⟩
  · intro heq
    rw [← heq] at hc
    exact hnc hc
  · cases hcls : classify (splitColon0 iz.izCode) <;>
      simp [izLoopStep, hk, hcl, hd, hcls]

/-- Witness for C9: the entry with code "045: poliomyelitis". -/
theorem c9_code_before_colon_witness :
    (':' ∉ splitColon0 "045: poliomyelitis".data)
    ∧ (∃ suf, "045: poliomyelitis".data = splitColon0 "045: poliomyelitis".data ++ ':' :: suf)
    ∧ splitColon0 "045: poliomyelitis".data ≠ "045: poliomyelitis".data
    ∧ izLoopStep (fun _ => "u0".data) ([], [], 1)
        ⟨"2".data, "20150101".data, "045: poliomyelitis".data, "D".data⟩
        = ([],
           (match classify (splitColon0 "045: poliomyelitis".data) with
            | some oid => [] ++ renderDisease "u0".data (splitColon0 "045: poliomyelitis".data)
                oid "20150101".data
            | none => []),
           (match classify (splitColon0 "045: poliomyelitis".data) with
            | some _ => 1 + 1
            | none => 1)) :=
  c9_code_before_colon (fun _ => "u0".data) [] [] 1
    ⟨"2".data, "20150101".data, "045: poliomyelitis".data, "D".data⟩
    (by decide) (by decide) (by decide) (by decide)

/-- C10.  An immunization entry whose kind is neither "I" nor "D"
contributes nothing to the document and raises no error: data2vmr on a
record containing it produces exactly the document produced without
it. -/
theorem c10_other_kind_ignored (u : Nat → LChar) (dob gender : LChar)
    (pre post : List Iz) (iz : Iz)
    (hI : iz.izKind ≠ "I".data) (hD : iz.izKind ≠ "D".data) :
    data2vmrRec u ⟨dob, gender, pre ++ iz :: post⟩
      = data2vmrRec u ⟨dob, gender, pre ++ post⟩ := by
  have hloop : ∀ st, izLoop u st (pre ++ iz :: post) = izLoop u st (pre ++ post) := by
    intro st
    unfold izLoop
    rw [List.foldl_append, List.foldl_append, List.foldl_cons,
      izLoopStep_skip u _ iz hI hD]
  unfold data2vmrRec
  dsimp only
  rw [hloop]

/-- C3.  For an administration proposal with at least one related
clinical statement, the per-proposal iteration of process_vmr's
forecast loop appends exactly one Forecast row, and its vaccine-group
name, vaccine-group code, forecast concept and interpretation fields
are those of the proposal's last related clinical statement (the loop
overwrites the variables on every iteration, so earlier statements'
values do not survive to the single append). -/
theorem c3_forecast_last_related (st : FSt) (rows : List FRow) (p : FProposal)
    (hne : p.related ≠ []) (res : FSt × List FRow)
    (h : fPropStep (some (st, rows)) p = some res) :
    ∃ row, res.2 = rows ++ [row]
      ∧ row.fGroup = (p.related.getLast hne).groupName
      ∧ row.fGroupCode = (p.related.getLast hne).groupCode
      ∧ row.fConcept = (p.related.getLast hne).conceptCode
      ∧ row.fInterp = addInterpsOpt [] ((p.related.getLast hne).interps) := by
  simp only [fPropStep, Option.bind_eq_bind, Option.some_bind, Option.bind_eq_some,
    Option.some.injEq] at h
  obtain ⟨st1, hst1, h⟩ := h
  obtain ⟨g, hg, gc, hgc, fc, hfc, fi, hfi, rd, hrd, pd, hpd, ed, hed, h⟩ := h
  obtain ⟨hf1, hf2, hf3, hf4⟩ := fRel_foldl_fields p p.related hne _ st1 hst1
  rw [hf1, Option.some.injEq] at hg
  rw [hf2, Option.some.injEq] at hgc
  rw [hf3, Option.some.injEq] at hfc
  rw [hf4, Option.some.injEq] at hfi
  refine ⟨⟨g, fc, fi, rd, gc,
    if p.subCodeSystem = "2.16.840.1.113883.12.292".data then p.subCode else [], ed, pd⟩,
    ?_, hg.symm, hgc.symm, hfc.symm, hfi.symm⟩
  rw [Option.pure_def] at h
  obtain rfl := (Option.some.inj h).symm
  rfl

/-- Witness for C3: a proposal with two related statements; the single
emitted row carries the second statement's group, concept and the
comma-joined interpretation "DUE_IN_FUTURE,HIGH_RISK". -/
theorem c3_forecast_last_related_witness :
    ∃ row, ((⟨some "MMR".data, some "500".data, some "FUTURE_RECOMMENDED".data,
        some "DUE_IN_FUTURE,HIGH_RISK".data, some "20250101".data, some [], some []⟩ : FSt),
        [(⟨"MMR".data, "FUTURE_RECOMMENDED".data, "DUE_IN_FUTURE,HIGH_RISK".data,
          "20250101".data, "500".data, "03".data, [], []⟩ : FRow)]).2 = [] ++ [row]
      ∧ row.fGroup = (c3Prop.related.getLast (by decide)).groupName
      ∧ row.fGroupCode = (c3Prop.related.getLast (by decide)).groupCode
      ∧ row.fConcept = (c3Prop.related.getLast (by decide)).conceptCode
      ∧ row.fInterp = addInterpsOpt [] ((c3Prop.related.getLast (by decide)).interps) :=
  c3_forecast_last_related initFSt [] c3Prop (by decide)
    (⟨some "MMR".data, some "500".data, some "FUTURE_RECOMMENDED".data,
        some "DUE_IN_FUTURE,HIGH_RISK".data, some "20250101".data, some [], some []⟩,
      [⟨"MMR".data, "FUTURE_RECOMMENDED".data, "DUE_IN_FUTURE,HIGH_RISK".data,
          "20250101".data, "500".data, "03".data, [], []⟩])
    (by decide)

/-- C4.  An administration event with no relatedClinicalStatement
child makes process_vmr emit exactly one sentinel Evaluation row
(immunizationId, date, vaccineCode, "Unsupported", "unsupported",
"0", "UNSUPPORTED", "", "0"), the id, date and vaccine code coming
from the event itself. -/
theorem c4_unsupported_sentinel (doc : RespDoc) (e : AdminEvent) (date : LChar)
    (fr : FSt × List FRow)
    (hev : doc.events = some [e]) (hrel : e.related = none)
    (hd : yyyymmddFirst e.adminHigh = some date)
    (hf : doc.proposals.foldl fPropStep (some (initFSt, [])) = some fr) :
    process_vmr doc = some ([⟨e.evId, date, e.cvx, "Unsupported".data, "unsupported".data,
      "0".data, "UNSUPPORTED".data, [], "0".data⟩], fr.2) := by
  have hstep : evtStep (some (initESt, ([] : List EvalRow))) e
      = some (initESt, [⟨e.evId, date, e.cvx, "Unsupported".data, "unsupported".data,
        "0".data, "UNSUPPORTED".data, [], "0".data⟩]) := by
    simp [evtStep, hd, hrel]
  unfold process_vmr
  rw [hev]
  simp only [List.foldl_cons, List.foldl_nil, hstep, hf, Option.bind_eq_bind,
    Option.some_bind]
  rfl

/-- Witness for C4 on the concrete document c4Doc. -/
theorem c4_unsupported_sentinel_witness :
    process_vmr c4Doc = some ([⟨c4Evt.evId, "20160101".data, c4Evt.cvx,
      "Unsupported".data, "unsupported".data, "0".data, "UNSUPPORTED".data, [],
      "0".data⟩], (initFSt, ([] : List FRow)).2) :=
  c4_unsupported_sentinel c4Doc c4Evt "20160101".data (initFSt, []) rfl rfl
    (by decide) rfl

/-- C5 (counterexample).  The claim states process_vmr emits one
Evaluation tuple per innermost related statement, each carrying only
its own interpretation codes.  In fact the append sits one loop level
up: for an inner event with the two innermost statements c5InnerA and
c5InnerB the parser emits a single row, whose interpretation field
"CODE_A,CODE_B" mixes both statements' codes and whose evaluation
fields come from the last statement. -/
theorem c5_eval_flatten_cex :
    process_vmr c5Doc = some ([c5Row], [])
    ∧ c5Row.rEvalInterp = "CODE_A,CODE_B".data
    ∧ c5Row.rEvalInterp ≠ "CODE_B".data
    ∧ c5Row.rEvalCode = c5InnerB.evalCode := by
  refine ⟨by decide, by decide, by decide, by decide⟩

/-- C5 (amended).  process_vmr emits exactly one Evaluation row per
inner administration event (not per innermost related statement): the
row's evaluation code, group name and group code come from the last
innermost related statement, and its interpretation field is the
comma-join of all the innermost statements' interpretation codes in
order. -/
theorem c5_eval_flatten_amended (ids : LChar × LChar × LChar) (st : EvalSt)
    (rows : List EvalRow) (ev : InnerEvt) (hne : ev.related ≠ [])
    (res : EvalSt × List EvalRow)
    (h : innerEvtStep ids (some (st, rows)) ev = some res) :
    ∃ row, res.2 = rows ++ [row]
      ∧ row.rEvalCode = (ev.related.getLast hne).evalCode
      ∧ row.rGroup = (ev.related.getLast hne).groupName
      ∧ row.rGroupCode = (ev.related.getLast hne).groupCode
      ∧ row.rEvalInterp = ev.related.foldl (fun a r => addInterpsOpt a r.interps) []
      ∧ row.rValidity = ev.isValidV ∧ row.rDoseNum = ev.doseNumber
      ∧ row.rId = ids.1 ∧ row.rDate = ids.2.1 ∧ row.rVaccine = ids.2.2 := by
  simp only [innerEvtStep, Option.bind_eq_bind, Option.some_bind, Option.bind_eq_some,
    Option.some.injEq] at h
  obtain ⟨ec, hec, eg, heg, egc, hegc, h⟩ := h
  have hfst := innerRel_foldl_fst ev.related hne (st, [])
  have hsnd := innerRel_foldl_snd ev.related (st, [])
  rw [hfst] at hec heg hegc
  simp only [Option.some.injEq] at hec heg hegc
  refine ⟨⟨ids.1, ids.2.1, ids.2.2, eg, ev.isValidV, ev.doseNumber, ec,
    (ev.related.foldl innerRelStep (st, [])).2, egc⟩, ?_, hec.symm, heg.symm, hegc.symm,
    hsnd, rfl, rfl, rfl, rfl, rfl⟩
  rw [Option.pure_def] at h
  obtain rfl := (Option.some.inj h).symm
  rfl

/-- Witness for C5 (amended) on the inner event of c5Doc. -/
theorem c5_eval_flatten_amended_witness :
    ∃ row, ((⟨some "EVALUATION_B".data, some "Group2".data, some "110".data⟩ : EvalSt),
        [c5Row]).2 = [] ++ [row]
      ∧ row.rEvalCode = (([c5InnerA, c5InnerB].getLast (by decide)).evalCode)
      ∧ row.rGroup = (([c5InnerA, c5InnerB].getLast (by decide)).groupName)
      ∧ row.rGroupCode = (([c5InnerA, c5InnerB].getLast (by decide)).groupCode)
      ∧ row.rEvalInterp
          = [c5InnerA, c5InnerB].foldl (fun a r => addInterpsOpt a r.interps) []
      ∧ row.rValidity = "true".data ∧ row.rDoseNum = "1".data
      ∧ row.rId = "imm1".data ∧ row.rDate = "20150101".data
      ∧ row.rVaccine = "03".data :=
  c5_eval_flatten_amended ("imm1".data, "20150101".data, "03".data) initESt []
    ⟨"true".data, "1".data, [c5InnerA, c5InnerB]⟩ (by decide)
    (⟨some "EVALUATION_B".data, some "Group2".data, some "110".data⟩, [c5Row])
    (by decide)

/-- C8.  Encoding the same Client Record twice, with two (arbitrary)
supplies of UUID-shaped fresh identifiers, yields two documents that
are identical except for the embedded identifiers: the outputs stand
in the ExceptIds relation, i.e. they are the same interleaving of
equal literal text with the respective 36-character identifier blocks
(patient wrapper id, per-substance ids, per-observation ids), so every
character outside those blocks is equal and the blocks sit at the same
positions. -/
theorem c8_identical_except_ids (d : ClientRecord) (u1 u2 : Nat → LChar)
    (h1 : validU u1) (h2 : validU u2) :
    ExceptIds (data2vmrRec u1 d) (data2vmrRec u2 d) := by
  have hhdr : ExceptIds (renderHeader (u1 0) d.dob d.gender)
      (renderHeader (u2 0) d.dob d.gender) :=
    renderHeader_rel (h1 0).1 (h1 0).2 (h2 0).1 (h2 0).2 d.dob d.gender
  obtain ⟨hb, ho, hk⟩ := izLoop_rel u1 u2 h1 h2 d.izs
    (renderHeader (u1 0) d.dob d.gender, [], 1)
    (renderHeader (u2 0) d.dob d.gender, [], 1) hhdr ExceptIds.nil rfl
  have hlen := exceptIds_length ho
  unfold data2vmrRec
  dsimp only
  by_cases hpos :
      0 < (izLoop u1 (renderHeader (u1 0) d.dob d.gender, [], 1) d.izs).2.1.length
  · have hpos2 :
        0 < (izLoop u2 (renderHeader (u2 0) d.dob d.gender, [], 1) d.izs).2.1.length := by
      rw [← hlen]
      exact hpos
    rw [if_pos hpos, if_pos hpos2]
    refine exceptIds_append ?_ (exceptIds_refl VMR_FOOTER_T)
    exact pyReplace_exceptIds _ _
      (exceptIds_append (exceptIds_append (exceptIds_refl OBS_OPEN) ho)
        (exceptIds_refl OBS_CLOSE)) _ _ _ (le_refl _) hb
  · have hpos2 :
        ¬ 0 < (izLoop u2 (renderHeader (u2 0) d.dob d.gender, [], 1) d.izs).2.1.length := by
      rw [← hlen]
      exact hpos
    rw [if_neg hpos, if_neg hpos2]
    exact exceptIds_append hb (exceptIds_refl VMR_FOOTER_T)

/-- Witness for C8: two runs over a concrete two-entry record with the
constant supplies of 36 'a's and 36 'b's. -/
theorem c8_identical_except_ids_witness :
    ExceptIds
      (data2vmrRec (fun _ => List.replicate 36 'a')
        ⟨"20100101".data, "M".data,
          [⟨"1".data, "20150101".data, "03: MMR".data, "I".data⟩,
           ⟨"2".data, "20150101".data, "045".data, "D".data⟩]⟩)
      (data2vmrRec (fun _ => List.replicate 36 'b')
        ⟨"20100101".data, "M".data,
          [⟨"1".data, "20150101".data, "03: MMR".data, "I".data⟩,
           ⟨"2".data, "20150101".data, "045".data, "D".data⟩]⟩) :=
  c8_identical_except_ids
    ⟨"20100101".data, "M".data,
      [⟨"1".data, "20150101".data, "03: MMR".data, "I".data⟩,
       ⟨"2".data, "20150101".data, "045".data, "D".data⟩]⟩
    (fun _ => List.replicate 36 'a') (fun _ => List.replicate 36 'b')
    (fun _ => ⟨by simp, fun c hc => by rw [List.eq_of_mem_replicate hc]; decide⟩)
    (fun _ => ⟨by simp, fun c hc => by rw [List.eq_of_mem_replicate hc]; decide⟩)

/-- Witness for C10: an entry of kind "X" among two ordinary ones. -/
theorem c10_other_kind_ignored_witness :
    data2vmrRec (fun _ => "u0".data)
      ⟨"20100101".data, "M".data,
        [⟨"1".data, "20150101".data, "03".data, "I".data⟩,
         ⟨"9".data, "20150101".data, "045".data, "X".data⟩,
         ⟨"2".data, "20150101".data, "045".data, "D".data⟩]⟩
      = data2vmrRec (fun _ => "u0".data)
      ⟨"20100101".data, "M".data,
        [⟨"1".data, "20150101".data, "03".data, "I".data⟩,
         ⟨"2".data, "20150101".data, "045".data, "D".data⟩]⟩ :=
  c10_other_kind_ignored (fun _ => "u0".data) "20100101".data "M".data
    [⟨"1".data, "20150101".data, "03".data, "I".data⟩]
    [⟨"2".data, "20150101".data, "045".data, "D".data⟩]
    ⟨"9".data, "20150101".data, "045".data, "X".data⟩
    (by decide) (by decide)

end PyIce
